import Mathlib

/-!
Verification development for the BCAA course-advisory chatbot
(`logics/customer_query_handler.py` and its loader/builder collaborators).

The Python source is shallowly embedded: pure helpers become Lean
functions over `String` / `List Char`; the regular expressions the code
uses are translated into executable matchers specialised to the concrete
patterns appearing in the source; module-level mutable globals become an
explicit state record threaded through `process_user_message`; the
external services (embedding, FAISS search, HTTP fetch, chat completion)
become oracle functions supplied by the environment, and the calls made
to them are recorded in a trace so that "service X was not invoked" is a
statement about the trace.

CPython detail that matters below: `retrieved_course_names` is a Python
`set`, whose iteration order is unspecified (hash-based, and randomized
across processes for strings).  The embedding therefore takes the
iteration order as an environment-supplied function `setIterOrder`; a
run of the real program corresponds to an oracle whose `setIterOrder ns`
is some permutation of `ns`.
-/

/-- ASCII word character, Python regex `\w` for the ASCII inputs handled
here: letters, digits and underscore. -/
def isWordChar (c : Char) : Bool :=
  c.isAlpha || c.isDigit || c == '_'

/-- Python regex `[A-Z]`. -/
def isUpperAZ (c : Char) : Bool :=
  'A' ≤ c && c ≤ 'Z'

/-- Python regex `\s` (ASCII whitespace). -/
def isPySpace (c : Char) : Bool :=
  c == ' ' || c == '\t' || c == '\n' || c == '\r' || c == '\x0b' || c == '\x0c'

/-- Character at position `i`, if any, is a word character. -/
def wordAt (s : List Char) (i : Nat) : Bool :=
  match s.get? i with
  | some c => isWordChar c
  | Option.none => false

/-- Python regex word boundary `\b` holds at position `p` of `s`:
exactly one side of the position carries a word character. -/
def boundaryAt (s : List Char) (p : Nat) : Bool :=
  (decide (p ≠ 0) && wordAt s (p - 1)) != wordAt s p

/-- Length of the maximal prefix of `s` whose characters satisfy `p`
(the text a greedy character-class quantifier consumes). -/
def charRun (p : Char → Bool) : List Char → Nat
  | [] => 0
  | c :: cs => if p c then charRun p cs + 1 else 0

/-- Case-sensitive literal match of `lit` against a prefix of `s`. -/
def litMatchAux : List Char → List Char → Bool
  | _, [] => true
  | [], _ :: _ => false
  | c :: cs, d :: ds => c == d && litMatchAux cs ds

/-- Case-sensitive literal match of `lit` at position `i` of `s`. -/
def litMatchAt (s : List Char) (i : Nat) (lit : List Char) : Bool :=
  litMatchAux (s.drop i) lit

/-- Case-insensitive (ASCII) literal match of `lit` against a prefix. -/
def litMatchCIAux : List Char → List Char → Bool
  | _, [] => true
  | [], _ :: _ => false
  | c :: cs, d :: ds => c.toLower == d.toLower && litMatchCIAux cs ds

/-- Case-insensitive literal match of `lit` at position `i` of `s`. -/
def litMatchCI (s : List Char) (i : Nat) (lit : List Char) : Bool :=
  litMatchCIAux (s.drop i) lit

/-- Python `str.lower()` (character-wise ASCII lowering; the inputs
handled here are ASCII). -/
def pyLower (s : String) : String :=
  String.mk (s.data.map Char.toLower)

/-- Python `str.strip()`: drop leading and trailing whitespace. -/
def pyStrip (s : String) : String :=
  String.mk (((s.data.dropWhile isPySpace).reverse.dropWhile isPySpace).reverse)

/-- Python `needle in hay` on strings (case-sensitive substring test). -/
def containsSub (hay needle : String) : Bool :=
  (List.range (hay.data.length + 1)).any (fun i => litMatchAt hay.data i needle.data)

/-- One attempt of `re.search(r'\b[A-Z]{2,5}\d{2,5}\b', title)` at
position `i`.  Because the character classes `[A-Z]` and `\d` are
disjoint and the match is closed by `\b` on both sides, the only
candidate the backtracking engine can accept at `i` is the full maximal
uppercase run followed by the full maximal digit run, each of length
2–5, flanked by word boundaries. -/
def ldMatchAt (s : List Char) (i : Nat) : Option (List Char) :=
  let r := charRun isUpperAZ (s.drop i)
  let d := charRun Char.isDigit (s.drop (i + r))
  if boundaryAt s i && decide (2 ≤ r) && decide (r ≤ 5) && decide (2 ≤ d) &&
      decide (d ≤ 5) && boundaryAt s (i + r + d) then
    some ((s.drop i).take (r + d))
  else
    Option.none

/-- `re.search(r'\b[A-Z]{2,5}\d{2,5}\b', title)`: leftmost match. -/
def searchLettersDigits (s : List Char) : Option String :=
  ((List.range (s.length + 1)).findSome? (ldMatchAt s)).map (fun cs => String.mk cs)

/-- One attempt of `re.search(r'\(([A-Z]{3,5})\)', title)` at position
`i`; as above, only the maximal uppercase run (of length 3–5) closed by
`')'` can be accepted. -/
def acrMatchAt (s : List Char) (i : Nat) : Option (List Char) :=
  if s.get? i == some '(' then
    let r := charRun isUpperAZ (s.drop (i + 1))
    if decide (3 ≤ r) && decide (r ≤ 5) && s.get? (i + 1 + r) == some ')' then
      some ((s.drop (i + 1)).take r)
    else
      Option.none
  else
    Option.none

/-- `re.search(r'\(([A-Z]{3,5})\)', title)`: leftmost match, group 1. -/
def searchParenAcronym (s : List Char) : Option String :=
  ((List.range (s.length + 1)).findSome? (acrMatchAt s)).map (fun cs => String.mk cs)

/-- Course-code extraction of `load_structured_course_data` (lines
68–77): primary letters-digits pattern first, parenthesised acronym only
when the primary is absent.  The Python `.strip()` on the match is the
identity because neither character class contains whitespace. -/
def extractCourseCode (title : String) : Option String :=
  match searchLettersDigits title.data with
  | some code => some code
  | Option.none => searchParenAcronym title.data

/-- A Python value that is either `None` or a `str` (the only shapes the
handler stores in the course-detail fields it touches). -/
inductive PyStr where
  | none : PyStr
  | str : String → PyStr
deriving DecidableEq, Repr

/-- Python truthiness of a `None`-or-`str` value: `None` and the empty
string are falsy. -/
def PyStr.truthy : PyStr → Bool
  | PyStr.none => false
  | PyStr.str s => !s.isEmpty

/-- The string carried by a truthy value (`""` for `None`). -/
def PyStr.getOrEmpty : PyStr → String
  | PyStr.none => ""
  | PyStr.str s => s

/-- How an f-string renders the value (`str(None) = "None"`). -/
def PyStr.pyShow : PyStr → String
  | PyStr.none => "None"
  | PyStr.str s => s

/-- One field of a course-detail dictionary.  `absent` models a missing
key (the dict-form loader never creates `url`/`course_code`/... keys),
`null` a key stored with value `None` (the list-form loader initialises
every detail field to `None`), `val` a stored string. -/
inductive PyField where
  | absent : PyField
  | null : PyField
  | val : String → PyField
deriving DecidableEq, Repr

/-- Python `d.get(key, default)` with a string default: the default is
used only when the key is absent; a stored `None` is returned as-is. -/
def PyField.getD : PyField → String → PyStr
  | PyField.absent, d => PyStr.str d
  | PyField.null, _ => PyStr.none
  | PyField.val s, _ => PyStr.str s

/-- Python `d.get(key)` (no default): absent and stored-`None` both give
`None`. -/
def PyField.get : PyField → PyStr
  | PyField.val s => PyStr.str s
  | _ => PyStr.none

/-- One entry of `dict_of_courses_structured`: the dictionary key
(`title`) plus the detail fields the handler reads or writes.  Fields
the code only carries through unchanged (category, skills, provider,
overview, ...) are omitted. -/
structure CourseEntry where
  title : String
  name : PyField
  url : PyField
  description : PyField
  course_code : PyField
  price : PyField
  duration : PyField
  entry_requirements : PyField
  course_schedule : PyField
deriving DecidableEq, Repr

/-- One attempt of the loader duration pattern
`re.search(r'(\d+)\s*(?:month|year)s?\b', description, re.IGNORECASE)`
at position `i`.  The digit and whitespace runs must be maximal (the
classes are disjoint from what follows them), the unit alternation tries
`month` before `year`, and the greedy optional `s` is taken exactly when
the trailing word boundary still holds afterwards. -/
def loaderDurMatchAt (s : List Char) (i : Nat) : Option (List Char) :=
  let d := charRun Char.isDigit (s.drop i)
  if d == 0 then Option.none
  else
    let w := charRun isPySpace (s.drop (i + d))
    let j := i + d + w
    let unit : Option Nat :=
      if litMatchCI s j "month".data then some 5
      else if litMatchCI s j "year".data then some 4
      else Option.none
    match unit with
    | some u =>
      if litMatchCI s (j + u) "s".data && !wordAt s (j + u + 1) then
        some ((s.drop i).take (d + w + u + 1))
      else if !wordAt s (j + u) then
        some ((s.drop i).take (d + w + u))
      else
        Option.none
    | Option.none => Option.none

/-- Loader duration extraction: leftmost match, `group(0)`.  The Python
`.strip()` is the identity: `group(0)` starts with a digit and ends with
a letter. -/
def loaderDuration (description : String) : Option String :=
  ((List.range (description.data.length + 1)).findSome? (loaderDurMatchAt description.data)).map
    (fun cs => String.mk cs)

/-- List-form branch of `load_structured_course_data` (lines 48–86) for
one item: every detail field is initialised to `None`, the course code
and duration are back-filled from the regex extractions when present. -/
def mkListFormCourseEntry (title url description : String) : CourseEntry :=
  { title := title
    name := PyField.val title
    url := PyField.val url
    description := PyField.val description
    course_code :=
      match extractCourseCode title with
      | some c => PyField.val c
      | Option.none => PyField.null
    price := PyField.null
    duration :=
      match loaderDuration description with
      | some d => PyField.val d
      | Option.none => PyField.null
    entry_requirements := PyField.null
    course_schedule := PyField.null }

/-- A word-boundary-delimited case-insensitive literal occurrence at
position `i`: the body of one alternative of the pattern
`\b(?:escaped_title|escaped_code)\b` built by
`extract_course_name_from_query`. -/
def wbLitAt (s : List Char) (lit : List Char) (i : Nat) : Bool :=
  boundaryAt s i && litMatchCI s i lit && boundaryAt s (i + lit.length)

/-- `re.search(r'\b(?:A|B)\b', query, re.IGNORECASE)` for literal
(escaped) alternatives `A` and `B`: some position matches one of them
between word boundaries.  When an alternative is the empty string (a
course code stored as the empty string) it matches the empty substring,
so the pattern succeeds at any word boundary. -/
def wbAltSearch (s a b : List Char) : Bool :=
  (List.range (s.length + 1)).any (fun i => wbLitAt s a i || wbLitAt s b i)

/-- `extract_course_name_from_query` (lines 214–220).  The pattern for
an entry is built from the escaped course name and the escaped result of
the course-code lookup with empty-string default; when the stored code
is `None` (list-form entry whose title yielded no code),
`re.escape(None)` raises before the search runs, which the embedding
reports as an error value. -/
def extract_course_name_from_query : List CourseEntry → String → Except String (Option String)
  | [], _ => Except.ok Option.none
  | e :: rest, query =>
    match PyField.getD e.course_code "" with
    | PyStr.none => Except.error "TypeError: expected string or bytes-like object"
    | PyStr.str code =>
      if wbAltSearch query.data e.title.data code.data then
        Except.ok (some e.title)
      else
        extract_course_name_from_query rest query

/-- An apostrophe, used to assemble the user-facing message strings. -/
def apos : String := String.singleton (Char.ofNat 39)

/-- One record of `course_chunks_metadata` (as written by
`build_faiss_index.py`): fragment text, source course title, source URL. -/
structure ChunkInfo where
  chunk : String
  original_item_title : String
  url : String
deriving DecidableEq, Repr

/-- Python list indexing `xs[i]`: non-negative indices directly,
negative indices from the end; `Option.none` models an `IndexError`. -/
def pyListGet (xs : List α) (i : Int) : Option α :=
  if 0 ≤ i then xs.get? i.toNat
  else if i.natAbs ≤ xs.length then xs.get? (xs.length - i.natAbs)
  else Option.none

/-- Retrieval loop of `process_user_message` (lines 251–261): keep the
returned indices that are neither the FAISS sentinel `-1` nor beyond the
metadata array, and map them through the metadata.  (FAISS only returns
`-1` or indices below `ntotal`; the `filterMap` drops the index values
below `-1` on which Python would raise, which cannot occur.) -/
def retrievedChunks (indices : List Int) (meta : List ChunkInfo) : List ChunkInfo :=
  (indices.filter (fun i => i != -1 && i < (meta.length : Int))).filterMap (pyListGet meta)

/-- Distinct elements in order of first appearance, given the elements
already seen. -/
def dedupFS (seen : List String) : List String → List String
  | [] => []
  | x :: xs => if x ∈ seen then dedupFS seen xs else x :: dedupFS (x :: seen) xs

/-- The distinct course titles of the retrieved fragments in order of
first appearance.  `retrieved_course_names` in the source is the Python
set of exactly these titles; its iteration order is an arbitrary
permutation of this list, supplied by the `setIterOrder` oracle. -/
def firstSeenTitles (cs : List ChunkInfo) : List String :=
  dedupFS [] (cs.map (fun c => c.original_item_title))

/-- `retrieved_urls_with_names` (lines 257–261): first URL seen per
course title, in first-seen order (Python dicts preserve insertion
order). -/
def urlDictOf (cs : List ChunkInfo) : List (String × String) :=
  cs.foldl
    (fun m c =>
      if m.any (fun p => p.1 == c.original_item_title) then m
      else m ++ [(c.original_item_title, c.url)])
    []

/-- `specific_detail_keywords` (line 268). -/
def specific_detail_keywords : List String :=
  ["fee", "cost", "price", "charge", "entry", "requirements", "prerequisite",
   "schedule", "intake", "start date", "duration", "course dates"]

/-- `has_specific_query` (line 269): keyword containment against the
lowercased query. -/
def has_specific_query (user_query : String) : Bool :=
  specific_detail_keywords.any (fun k => containsSub (pyLower user_query) k)

/-- Schedule-related keywords of the prompt selection (line 300). -/
def schedule_keywords : List String :=
  ["schedule", "intake", "start date", "duration", "course dates"]

/-- The diploma-vs-modular substring heuristic (line 337). -/
def isModularOrCert (course_name : String) : Bool :=
  containsSub (pyLower course_name) "modular" || containsSub (pyLower course_name) "certificate"

/-- `courses_to_display` (lines 331–343): the non-modular titles first,
then the modular/certificate ones, each group in the iteration order of
the course-name set. -/
def coursesToDisplay (order : List String) : List String :=
  order.filter (fun n => !(isModularOrCert n)) ++ order.filter isModularOrCert

/-- The display list actually summarised: the first three entries of
`courses_to_display` (line 346). -/
def displayList (order : List String) : List String :=
  (coursesToDisplay order).take 3

/-- `get_url_from_course_name` (lines 179–182). -/
def get_url_from_course_name (catalog : List CourseEntry) (course_name : String) : PyStr :=
  match catalog.find? (fun e => e.title == course_name) with
  | some e => PyField.get e.url
  | Option.none => PyStr.none

/-- The conversation state: `global_last_discussed_course_name` and
`conversation_history` (role–content pairs in a deque of
`maxlen=MAX_HISTORY_LENGTH`). -/
structure ConvState where
  lastCourse : PyStr
  history : List (String × String)
deriving DecidableEq, Repr

/-- The loaded read-only globals: structured catalog, FAISS index (its
vector count when loaded), chunk metadata, and whether the embedding
model object was initialised. -/
structure SysEnv where
  catalog : List CourseEntry
  faissIndex : Option Nat
  metadata : List ChunkInfo
  embModelLoaded : Bool
deriving DecidableEq, Repr

/-- The external services, as oracle functions: the embedding service
(may fail with a message), the FAISS top-5 search (index list for an
embedding token), the web fetch (empty string on failure), the chat
completion, and the iteration order CPython gives the course-name set. -/
structure Oracles where
  embed : String → Except String Nat
  search : Nat → List Int
  fetch : String → String
  llm : List (String × String) → String
  setIterOrder : List String → List String

/-- Record of the inputs sent to each external service during one call
of `process_user_message`. -/
structure CallTrace where
  embedCalls : List String
  llmCalls : List (List (String × String))
  fetchCalls : List String
deriving DecidableEq, Repr

/-- The triple `process_user_message` returns: reply text, structured
course rows, and the specific-detail flag. -/
structure PRes where
  reply : String
  rows : List CourseEntry
  isFollowUp : Bool
deriving DecidableEq, Repr

/-- `MAX_HISTORY_LENGTH` (line 24). -/
def MAX_HISTORY_LENGTH : Nat := 5

/-- Appending to a `deque(maxlen=n)`: the newest element is kept and the
oldest entries beyond the bound are evicted. -/
def dequeAppend (maxLen : Nat) (xs : List α) (x : α) : List α :=
  let ys := xs ++ [x]
  ys.drop (ys.length - maxLen)

/-- One turn of history recording (lines 395–396): the user query and
the reply are appended as two separate deque entries. -/
def appendTurn (h : List (String × String)) (user_query reply : String) : List (String × String) :=
  dequeAppend MAX_HISTORY_LENGTH (dequeAppend MAX_HISTORY_LENGTH h ("user", user_query)) ("assistant", reply)

/-- Query enrichment (lines 235–237): the embedding input is the raw
query, extended with domain terms when it mentions project managers. -/
def expandQuery (user_query : String) : String :=
  if containsSub (pyLower user_query) "project managers" then
    user_query ++ " construction management BIM management"
  else
    user_query

/-- The fixed reply when the FAISS components could not be loaded
(line 229). -/
def kbUnavailableMsg : String :=
  "I" ++ apos ++ "m sorry, my knowledge base could not be loaded. Please ensure all setup steps are complete."

/-- The fixed reply when the embedding model is not initialised
(line 231). -/
def embModelMsg : String :=
  "I" ++ apos ++ "m sorry, the embedding model is not initialized."

/-- The fixed reply when no context at all was assembled (line 295). -/
def nothingFoundMsg : String :=
  "I couldn" ++ apos ++ "t find relevant information in my knowledge base. Please try rephrasing or ask about specific BCA Academy Specialist Diploma programmes."

/-- The chunks retrieved for embedding token `v`. -/
def chunksOf (env : SysEnv) (o : Oracles) (v : Nat) : List ChunkInfo :=
  retrievedChunks (o.search v) env.metadata

/-- `context_str` (line 263). -/
def contextStrOf (env : SysEnv) (o : Oracles) (v : Nat) : String :=
  String.intercalate "\n---\n" ((chunksOf env o v).map (fun c => c.chunk))

/-- The distinct retrieved course titles, in first-seen order. -/
def namesOf (env : SysEnv) (o : Oracles) (v : Nat) : List String :=
  firstSeenTitles (chunksOf env o v)

/-- The iteration order of the `retrieved_course_names` set. -/
def setOrderOf (env : SysEnv) (o : Oracles) (v : Nat) : List String :=
  o.setIterOrder (namesOf env o v)

/-- Lines 272–274: an explicit course name in the query overwrites the
last-discussed course before the URL resolution. -/
def resolvedLast (st : ConvState) (ex : Option String) : PyStr :=
  match ex with
  | some c => PyStr.str c
  | Option.none => st.lastCourse

/-- `course_url_for_details` (lines 276–281). -/
def courseUrlOf (env : SysEnv) (o : Oracles) (st : ConvState) (user_query : String)
    (v : Nat) (ex : Option String) : PyStr :=
  let last1 := resolvedLast st ex
  if has_specific_query user_query && last1.truthy then
    get_url_from_course_name env.catalog last1.getOrEmpty
  else if !(namesOf env o v).isEmpty then
    match (setOrderOf env o v).head? with
    | some first => if !first.isEmpty then get_url_from_course_name env.catalog first else PyStr.none
    | Option.none => PyStr.none
  else
    PyStr.none

/-- `dynamic_context` (lines 283–290): non-empty only when a URL was
resolved and the fetch produced text. -/
def dynamicContextOf (env : SysEnv) (o : Oracles) (st : ConvState) (user_query : String)
    (v : Nat) (ex : Option String) : String :=
  match courseUrlOf env o st user_query v ex with
  | PyStr.str u =>
    if u.isEmpty then ""
    else
      let scraped := o.fetch u
      if scraped.isEmpty then ""
      else "\n\n--- Dynamically Scraped Content from " ++ u ++ " ---\n" ++ scraped ++ "\n"
  | PyStr.none => ""

/-- The URLs passed to the fetcher while assembling dynamic context. -/
def fetchLogOf (env : SysEnv) (o : Oracles) (st : ConvState) (user_query : String)
    (v : Nat) (ex : Option String) : List String :=
  match courseUrlOf env o st user_query v ex with
  | PyStr.str u => if u.isEmpty then [] else [u]
  | PyStr.none => []

/-- Schedule-specific extraction template (lines 301–313; the leading
indentation of the Python triple-quoted literal is normalised away). -/
def schedulePrompt (lastCourse : PyStr) (user_query dyn : String) : String :=
  "\nYou are a helpful AI assistant. Your task is to extract all schedule, intake, and course date information for the course \"" ++
  lastCourse.pyShow ++ "\" from the provided context.\nUser Query: \"" ++ user_query ++
  "\"\nContext from Website:\n" ++ dyn ++
  "\n\nInstructions:\n- Summarize all dates, times, and durations related to the course schedule.\n- If the information is not present, state: \"The requested information is not available on the official website.\"\n- Do not include any extra sentences.\n- Always include the course URL at the end of the response.\n- Your final answer should be formatted as: \"[Extracted Answer]\n\nFor more details, please refer to the official course website: [URL]\"\n"

/-- General fact-extraction template for the other specific-detail
queries (lines 316–328). -/
def detailExtractionPrompt (lastCourse : PyStr) (user_query dyn : String) : String :=
  "\nYou are a data extraction assistant. Find the exact piece of information requested by the user from the provided context for the course: \"" ++
  lastCourse.pyShow ++ "\".\nUser Query: \"" ++ user_query ++
  "\"\nContext from Website:\n" ++ dyn ++
  "\n\nInstructions:\n- Find the specific detail requested for the specified course.\n- Respond with a concise and direct answer. Do not include extra sentences.\n- If the information is not explicitly present, state: \"The requested information is not available on the official website.\"\n- Always include the course URL at the end of the response.\n- Your final answer should be formatted as: \"[Extracted Answer]\n\nFor more details, please refer to the official course website: [URL]\"\n"

/-- One per-course summary block of the overview prompt (lines 346–357). -/
def summaryBlock (catalog : List CourseEntry) (course_name : String) : String :=
  let fields :=
    match catalog.find? (fun e => e.title == course_name) with
    | some e =>
      ((PyField.getD e.url "URL not available").pyShow,
       (PyField.getD e.description "Description not available.").pyShow,
       (PyField.getD e.course_code "N/A").pyShow)
    | Option.none => ("URL not available", "Description not available.", "N/A")
  "**Course Name:** **" ++ course_name ++ "**\n" ++
  "**Event Code:** " ++ fields.2.2 ++ "\n" ++
  "**Description:** " ++ fields.2.1 ++ "\n" ++
  "**URL:** " ++ fields.1

/-- `summaries_text` (line 359). -/
def summariesText (catalog : List CourseEntry) (display : List String) : String :=
  String.intercalate "\n\n" (display.map (summaryBlock catalog))

/-- Overview/recommendation template (lines 361–386), with the relevant
URLs appended. -/
def overviewPrompt (user_query finalCtx summaries urlsStr : String) : String :=
  "\nYou are a helpful AI assistant knowledgeable about BCA Academy" ++ apos ++
  "s Specialist Diploma programmes.\nYour task is to provide a structured, numbered list of the top 3 most relevant courses based on the user" ++ apos ++
  "s query.\n\nUser Query: \"" ++ user_query ++
  "\"\n\nCourse Information Context (from multiple sources):\n" ++ finalCtx ++
  "\n\nInstructions:\n1. Identify the top 3 most relevant courses from the provided context. When a query is about \"project managers,\" consider courses on **Construction Management** and **BIM Management** as highly relevant. Prioritize full diploma programs over modular certificates.\n2. Format your response as a numbered list (e.g., \"1. Course Name...\").\n3. For each course, provide a concise summary using the following format:\n   **Course Name:** [The full course name]\n   **Event Code:** [The course event code]\n   **Description:** [A brief summary of the course content]\n   **URL:** [The official course URL]\n4. End the response with a final sentence directing the user to the table below for more details.\n\nHere are the course summaries to use:\n---\n" ++
  summaries ++ "\n---\n" ++
  "\n\nRelevant URLs:\n" ++ urlsStr

/-- The message list of the main completion call (lines 388–391):
system prompt, the recorded history turns, then the raw user query. -/
def mainMessages (sysPrompt : String) (st : ConvState) (user_query : String) : List (String × String) :=
  ("system", sysPrompt) :: (st.history ++ [("user", user_query)])

/-- Python regex `[A-Z0-9]` under `re.IGNORECASE` (so also `[a-z]`). -/
def isAlnumCode (c : Char) : Bool :=
  ('A' ≤ c && c ≤ 'Z') || ('a' ≤ c && c ≤ 'z') || c.isDigit

/-- Character at position `k` is a decimal digit. -/
def isDigitAt (s : List Char) (k : Nat) : Bool :=
  match s.get? k with
  | some c => c.isDigit
  | Option.none => false

/-- One attempt of `re.search(r'EVENT\s*CODE:\s*([A-Z0-9]+)', scraped,
re.IGNORECASE)` at position `i` (group 1). -/
def eventCodeMatchAt (s : List Char) (i : Nat) : Option (List Char) :=
  if litMatchCI s i "EVENT".data then
    let j1 := i + 5 + charRun isPySpace (s.drop (i + 5))
    if litMatchCI s j1 "CODE:".data then
      let j2 := j1 + 5 + charRun isPySpace (s.drop (j1 + 5))
      let r := charRun isAlnumCode (s.drop j2)
      if r == 0 then Option.none else some ((s.drop j2).take r)
    else Option.none
  else Option.none

/-- Event-code extraction (lines 418–422): leftmost match, group 1
(whose `.strip()` is the identity). -/
def eventCodeSearch (scraped : String) : Option String :=
  ((List.range (scraped.data.length + 1)).findSome? (eventCodeMatchAt scraped.data)).map
    (fun cs => String.mk cs)

/-- Python regex `[\d,]`. -/
def isDigitComma (c : Char) : Bool :=
  c.isDigit || c == ','

/-- One attempt of `re.search(r'S\$[\d,]+\.[\d]{2}', scraped,
re.IGNORECASE)` at position `i`. -/
def feesMatchAt (s : List Char) (i : Nat) : Option (List Char) :=
  if litMatchCI s i "S$".data then
    let r := charRun isDigitComma (s.drop (i + 2))
    if r == 0 then Option.none
    else if s.get? (i + 2 + r) == some '.' && isDigitAt s (i + 3 + r) && isDigitAt s (i + 4 + r) then
      some ((s.drop i).take (r + 5))
    else Option.none
  else Option.none

/-- Fee extraction (lines 426–428): leftmost match, `group(0)`. -/
def feesSearch (scraped : String) : Option String :=
  ((List.range (scraped.data.length + 1)).findSome? (feesMatchAt scraped.data)).map
    (fun cs => String.mk cs)

/-- One attempt of `re.search(r'(\d+\s+(?:month|year)s?)', scraped,
re.IGNORECASE)` at position `i` (no closing word boundary here, unlike
the loader pattern). -/
def rowDurMatchAt (s : List Char) (i : Nat) : Option (List Char) :=
  let d := charRun Char.isDigit (s.drop i)
  if d == 0 then Option.none
  else
    let w := charRun isPySpace (s.drop (i + d))
    if w == 0 then Option.none
    else
      let j := i + d + w
      let unit : Option Nat :=
        if litMatchCI s j "month".data then some 5
        else if litMatchCI s j "year".data then some 4
        else Option.none
      match unit with
      | some u =>
        let extra := if litMatchCI s (j + u) "s".data then 1 else 0
        some ((s.drop i).take (d + w + u + extra))
      | Option.none => Option.none

/-- Row duration extraction (lines 431–433): leftmost match. -/
def rowDurationSearch (scraped : String) : Option String :=
  ((List.range (scraped.data.length + 1)).findSome? (rowDurMatchAt scraped.data)).map
    (fun cs => String.mk cs)

/-- Entry-requirements extraction prompt of the row builder
(lines 436–444). -/
def entryExtractionPrompt (course_name scraped : String) : String :=
  "\nYou are a data extraction bot. Extract the entry requirements for the course \"" ++ course_name ++
  "\" from the provided text.\nText:\n" ++ scraped ++
  "\nInstructions:\n- Respond only with the entry requirements as a single string.\n- If the information is not present, use \"N/A\".\n- Do not include any extra text or conversational filler.\n"

/-- Schedule extraction prompt of the row builder (lines 450–458). -/
def scheduleExtractionPrompt (course_name scraped : String) : String :=
  "\nYou are a data extraction bot. Extract the schedule and intake dates for the course \"" ++ course_name ++
  "\" from the provided text.\nText:\n" ++ scraped ++
  "\nInstructions:\n- Summarize the schedule and intake dates.\n- If the information is not present, use \"N/A\".\n- Do not include any extra text or conversational filler.\n"

/-- Building one structured row (lines 409–463): a copy of the catalog
entry, enriched from a fresh fetch of its URL when that URL is truthy;
also returns the completion-call and fetch-call logs of this row. -/
def buildRow (o : Oracles) (e : CourseEntry) : CourseEntry × List (List (String × String)) × List String :=
  match PyField.get e.url with
  | PyStr.str u =>
    if u.isEmpty then (e, [], [])
    else
      let scraped := o.fetch u
      let e1 := { e with course_code :=
        match eventCodeSearch scraped with
        | some c => PyField.val c
        | Option.none => PyField.val "N/A" }
      let e2 :=
        match feesSearch scraped with
        | some f => { e1 with price := PyField.val f }
        | Option.none => e1
      let e3 :=
        match rowDurationSearch scraped with
        | some d2 => { e2 with duration := PyField.val d2 }
        | Option.none => e2
      let pE := entryExtractionPrompt e.title scraped
      let rE := o.llm [("system", pE)]
      let e4 :=
        if !(containsSub rE "N/A") && !(containsSub rE "not available") then
          { e3 with entry_requirements := PyField.val (pyStrip rE) }
        else e3
      let pS := scheduleExtractionPrompt e.title scraped
      let rS := o.llm [("system", pS)]
      let e5 :=
        if !(containsSub rS "N/A") && !(containsSub rS "not available") then
          { e4 with course_schedule := PyField.val (pyStrip rS) }
        else e4
      (e5, [[("system", pE)], [("system", pS)]], [u])
  | PyStr.none => (e, [], [])

/-- `course_details_list` (lines 406–463): at most the first three
course names of the set iteration order, each resolved against the
catalog; rows plus the service-call logs of the loop. -/
def buildRows (env : SysEnv) (o : Oracles) (names order : List String) :
    List CourseEntry × List (List (String × String)) × List String :=
  if names.isEmpty then ([], [], [])
  else
    (order.take 3).foldl
      (fun acc course_name =>
        match env.catalog.find? (fun e => e.title == course_name) with
        | some e =>
          let row := buildRow o e
          (acc.1 ++ [row.1], acc.2.1 ++ row.2.1, acc.2.2 ++ row.2.2)
        | Option.none => acc)
      ([], [], [])

/-- `process_user_message` from the point where the query embedding `v`
and the explicit-course extraction result `ex` are in hand (lines
244–470).  This part of the function always returns normally. -/
def processAfterExtract (env : SysEnv) (o : Oracles) (st : ConvState)
    (user_query embIn : String) (v : Nat) (ex : Option String) : PRes × ConvState × CallTrace :=
  let hasSpec := has_specific_query user_query
  let last1 := resolvedLast st ex
  let dyn := dynamicContextOf env o st user_query v ex
  let fetchLog := fetchLogOf env o st user_query v ex
  let finalCtx := contextStrOf env o v ++ dyn
  if finalCtx.isEmpty then
    (⟨nothingFoundMsg, [], hasSpec⟩, ⟨last1, st.history⟩, ⟨[embIn], [], fetchLog⟩)
  else
    let sysPrompt :=
      if hasSpec && !dyn.isEmpty then
        if schedule_keywords.any (fun k => containsSub (pyLower user_query) k) then
          schedulePrompt last1 user_query dyn
        else
          detailExtractionPrompt last1 user_query dyn
      else
        overviewPrompt user_query finalCtx
          (summariesText env.catalog (displayList (setOrderOf env o v)))
          (String.intercalate "\n" ((urlDictOf (chunksOf env o v)).map (fun p => p.2)))
    let messages := mainMessages sysPrompt st user_query
    let llmResponse := o.llm messages
    let hist := appendTurn st.history user_query llmResponse
    let identified := (setOrderOf env o v).head?
    let last2 :=
      if !hasSpec && (match identified with | some c => !c.isEmpty | Option.none => false) then
        PyStr.str (identified.getD "")
      else last1
    let rows := buildRows env o (namesOf env o v) (setOrderOf env o v)
    (⟨llmResponse, rows.1, hasSpec⟩, ⟨last2, hist⟩,
     ⟨[embIn], messages :: rows.2.1, fetchLog ++ rows.2.2⟩)

/-- `process_user_message` (lines 223–470), parameterised by the text
sent to the embedding service.  The `Except.error` case is the one
uncaught exception the function can raise: `re.escape(None)` inside
`extract_course_name_from_query`. -/
def processPipeline (env : SysEnv) (o : Oracles) (st : ConvState)
    (user_query embIn : String) : Except String (PRes × ConvState × CallTrace) :=
  if env.faissIndex.isNone then
    Except.ok (⟨kbUnavailableMsg, [], false⟩, st, ⟨[], [], []⟩)
  else if !env.embModelLoaded then
    Except.ok (⟨embModelMsg, [], false⟩, st, ⟨[], [], []⟩)
  else
    match o.embed embIn with
    | Except.error e =>
      Except.ok (⟨"Error embedding your query: " ++ e ++ ". Cannot perform search.", [], false⟩,
        st, ⟨[embIn], [], []⟩)
    | Except.ok v =>
      match extract_course_name_from_query env.catalog user_query with
      | Except.error e => Except.error e
      | Except.ok ex => Except.ok (processAfterExtract env o st user_query embIn v ex)

/-- `process_user_message`: the embedding input is the enriched query. -/
def process_user_message (env : SysEnv) (o : Oracles) (st : ConvState) (user_query : String) :
    Except String (PRes × ConvState × CallTrace) :=
  processPipeline env o st user_query (expandQuery user_query)

/-- The same pipeline with query expansion disabled: the raw query is
the embedding input.  Used to state that expansion affects nothing but
the embedding input. -/
def processNoExpansion (env : SysEnv) (o : Oracles) (st : ConvState) (user_query : String) :
    Except String (PRes × ConvState × CallTrace) :=
  processPipeline env o st user_query user_query

/-- The outcome of the file reads `load_faiss_components` performs. -/
structure LoadInputs where
  embInitOk : Bool
  filesExist : Bool
  indexRead : Except String Nat
  metaRead : Except String (List ChunkInfo)

/-- `load_faiss_components` (lines 107–133) as a transformer of the
loaded globals.  Note the absence of any consistency check between the
index vector count and the metadata length; note also that a metadata
read failure after a successful index read leaves the index assigned
(the two assignments sit in one `try` block, in that order). -/
def load_faiss_components (inp : LoadInputs) (env : SysEnv) : SysEnv :=
  if env.faissIndex.isSome && env.embModelLoaded then env
  else if !inp.embInitOk then env
  else
    let env1 := { env with embModelLoaded := true }
    if inp.filesExist then
      match inp.indexRead with
      | Except.error _ => env1
      | Except.ok n =>
        match inp.metaRead with
        | Except.error _ => { env1 with faissIndex := some n }
        | Except.ok meta => { env1 with faissIndex := some n, metadata := meta }
    else env1

/-- Conversation state of a returned run, when no exception escaped. -/
def okState : Except String (PRes × ConvState × CallTrace) → Option ConvState
  | Except.ok r => some r.2.1
  | Except.error _ => Option.none

/-- Service-call trace of a returned run. -/
def okTrace : Except String (PRes × ConvState × CallTrace) → Option CallTrace
  | Except.ok r => some r.2.2
  | Except.error _ => Option.none

/-- Result triple of a returned run. -/
def okRes : Except String (PRes × ConvState × CallTrace) → Option PRes
  | Except.ok r => some r.1
  | Except.error _ => Option.none

/-- Metadata rows used by the concrete scenarios below: fragments over
two distinct courses, course A first. -/
def cexMetadata : List ChunkInfo :=
  [⟨"chunkA", "Course A Diploma", "urlA"⟩, ⟨"chunkB", "Course B Diploma", "urlB"⟩]

/-- Concrete environment: empty structured catalog, loaded index and
embedding model, the two metadata rows above. -/
def cexEnv : SysEnv :=
  { catalog := [], faissIndex := some 2, metadata := cexMetadata, embModelLoaded := true }

/-- Concrete oracles; the set-iteration-order oracle reverses the
first-seen list, a permutation CPython is free to produce. -/
def cexOracles : Oracles :=
  { embed := fun _ => Except.ok 0
    search := fun _ => [0, 1, -1, -1, -1]
    fetch := fun _ => ""
    llm := fun _ => "model reply"
    setIterOrder := fun l => l.reverse }

/-- Concrete oracles whose search returns no hit. -/
def noHitOracles : Oracles :=
  { embed := fun _ => Except.ok 0
    search := fun _ => [-1, -1, -1, -1, -1]
    fetch := fun _ => ""
    llm := fun _ => "model reply"
    setIterOrder := fun l => l }

/-- Concrete oracles whose embedding call fails. -/
def embedFailOracles : Oracles :=
  { embed := fun _ => Except.error "boom"
    search := fun _ => []
    fetch := fun _ => ""
    llm := fun _ => "model reply"
    setIterOrder := fun l => l }

/-- Fresh conversation state. -/
def cexSt : ConvState := { lastCourse := PyStr.none, history := [] }

/-- The `n` most recent elements of a list. -/
def lastN (n : Nat) (l : List α) : List α :=
  l.drop (l.length - n)

/-- The conversation history obtained by appending a list of
query+reply turns (two deque appends per turn, exactly as
`process_user_message` records a turn) to an initially empty history. -/
def historyAfterTurns (ts : List (String × String)) : List (String × String) :=
  ts.foldl (fun h t => appendTurn h t.1 t.2) []

/-- The full message log of a list of turns: each turn contributes its
user query and its reply, in order. -/
def flattenTurns (ts : List (String × String)) : List (String × String) :=
  ts.foldr (fun t acc => ("user", t.1) :: ("assistant", t.2) :: acc) []

/-- First diploma title of the C1 scenario. -/
def c1A : String := "Specialist Diploma A"

/-- Modular certificate title of the C1 scenario. -/
def c1B : String := "Modular Certificate B"

/-- Second diploma title of the C1 scenario. -/
def c1C : String := "Specialist Diploma C"

/-- Five retrieved fragments spanning the three courses, first seen in
the order A, B, C. -/
def c1frags : List ChunkInfo :=
  [⟨"f1", c1A, "u"⟩, ⟨"f2", c1B, "u"⟩, ⟨"f3", c1A, "u"⟩, ⟨"f4", c1C, "u"⟩, ⟨"f5", c1B, "u"⟩]

/-- Index/metadata pair whose counts disagree: 7 vectors, 3 metadata
rows. -/
def mismatchInputs : LoadInputs :=
  { embInitOk := true, filesExist := true, indexRead := Except.ok 7,
    metaRead := Except.ok [⟨"c1", "t1", "u1"⟩, ⟨"c2", "t2", "u2"⟩, ⟨"c3", "t3", "u3"⟩] }

/-- Fresh loader state: nothing loaded yet. -/
def emptyEnv : SysEnv :=
  { catalog := [], faissIndex := Option.none, metadata := [], embModelLoaded := false }

/-- The outcome of a run with the embedding-service inputs erased from
the trace: reply, rows, flag, conversation state, completion inputs and
fetch inputs. -/
def visibleOutcome :
    Except String (PRes × ConvState × CallTrace) →
      Except String (PRes × ConvState × (List (List (String × String)) × List String))
  | Except.error e => Except.error e
  | Except.ok r => Except.ok (r.1, r.2.1, (r.2.2.llmCalls, r.2.2.fetchCalls))

/-- C5: course-code extraction tries the whole-word 2–5-uppercase +
2–5-digit pattern first and the parenthesised 3–5-letter acronym only
when the primary pattern is absent; "Specialist Diploma in Construction
Management (SDCM)" yields SDCM, a title containing BCA123 yields BCA123,
a title matching neither yields no code, and a title containing both
yields the primary match. -/
theorem c5_course_code_extraction :
    extractCourseCode "Specialist Diploma in Construction Management (SDCM)" = some "SDCM" ∧
    extractCourseCode "Specialist Diploma in Construction Productivity BCA123" = some "BCA123" ∧
    extractCourseCode "Specialist Diploma in Construction Management" = Option.none ∧
    extractCourseCode "Construction Management BCA123 (SDCM)" = some "BCA123" :=
  ⟨by decide, by decide, by decide, by decide⟩

/-- C10 counterexample: on a list-form catalog entry whose title
matches neither code pattern, the stored course code is the null
default, and `extract_course_name_from_query` raises (modelled as an
error value) instead of returning normally. -/
theorem c10_counterexample :
    (mkListFormCourseEntry "Specialist Diploma in Construction Management" "http://x" "d").course_code =
      PyField.null ∧
    extract_course_name_from_query
        [mkListFormCourseEntry "Specialist Diploma in Construction Management" "http://x" "d"]
        "what are the fees" =
      Except.error "TypeError: expected string or bytes-like object" :=
  ⟨by decide, by rfl⟩

/-- C10 amended: `extract_course_name_from_query` returns normally for
every query provided every catalog entry course-code lookup yields a
string (which covers dict-form entries, whose absent key defaults to the
empty string); an entry whose stored code is the list-form null default
makes it raise instead. -/
theorem c10_total_when_codes_are_strings :
    ∀ (catalog : List CourseEntry) (query : String),
      (∀ e ∈ catalog, PyField.getD e.course_code "" ≠ PyStr.none) →
      ∃ r, extract_course_name_from_query catalog query = Except.ok r := by
  intro catalog query
  induction catalog with
  | nil => exact fun _ => ⟨Option.none, rfl⟩
  | cons e rest ih =>
    intro h
    have he := h e (List.mem_cons_self e rest)
    cases hc : PyField.getD e.course_code "" with
    | none => exact absurd hc he
    | str code =>
      cases hs : wbAltSearch query.data e.title.data code.data with
      | true => exact ⟨some e.title, by simp [extract_course_name_from_query, hc, hs]⟩
      | false =>
        obtain ⟨r, hr⟩ := ih (fun x hx => h x (List.mem_cons_of_mem e hx))
        exact ⟨r, by simp [extract_course_name_from_query, hc, hs, hr]⟩

/-- C10 witness: a concrete catalog whose single entry carries a string
code is total on a concrete query. -/
theorem c10_witness :
    ∃ r, extract_course_name_from_query
        [mkListFormCourseEntry "Specialist Diploma in Construction Management (SDCM)" "u" "d"]
        "when is the intake" = Except.ok r :=
  c10_total_when_codes_are_strings _ "when is the intake" (by decide)

theorem dequeAppend_eq_lastN (n : Nat) (xs : List α) (x : α) :
    dequeAppend n xs x = lastN n (xs ++ [x]) := by
  simp [dequeAppend, lastN]

theorem lastN_length_le (n : Nat) (l : List α) : (lastN n l).length ≤ n := by
  simp [lastN]
  omega

theorem lastN_append_lastN (n : Nat) (l m : List α) :
    lastN n (lastN n l ++ m) = lastN n (l ++ m) := by
  have hk : (l.length - n) - l.length = 0 := by omega
  have h1 : (l ++ m).drop (l.length - n) = l.drop (l.length - n) ++ m := by
    rw [List.drop_append_eq_append_drop, hk, List.drop_zero]
  simp only [lastN, List.length_append, List.length_drop]
  rw [← h1, List.drop_drop]
  congr 1
  omega

theorem foldl_dequeAppend_eq_lastN (n : Nat) (msgs : List α) :
    ∀ init : List α, init.length ≤ n →
      msgs.foldl (dequeAppend n) init = lastN n (init ++ msgs) := by
  induction msgs with
  | nil =>
    intro init h
    simp [lastN, Nat.sub_eq_zero_of_le h]
  | cons m ms ih =>
    intro init h
    rw [List.foldl_cons]
    have hlen : (dequeAppend n init m).length ≤ n := by
      rw [dequeAppend_eq_lastN]
      exact lastN_length_le n _
    rw [ih _ hlen, dequeAppend_eq_lastN, lastN_append_lastN]
    simp

theorem foldl_appendTurn_eq_foldl_dequeAppend (ts : List (String × String)) :
    ∀ init, ts.foldl (fun h t => appendTurn h t.1 t.2) init =
      (flattenTurns ts).foldl (dequeAppend MAX_HISTORY_LENGTH) init := by
  induction ts with
  | nil => intro init; rfl
  | cons t ts ih =>
    intro init
    simp only [List.foldl_cons, flattenTurns, List.foldr_cons]
    rw [← flattenTurns, ih]
    rfl

/-- C3 amended: the history deque is bounded at 5 individual messages,
not 5 query+reply pairs — each turn appends its query and its reply as
two separate entries, and the deque keeps the 5 most recent entries,
evicting oldest-first. -/
theorem c3_history_keeps_last_five_messages :
    ∀ ts : List (String × String),
      historyAfterTurns ts = lastN MAX_HISTORY_LENGTH (flattenTurns ts) := by
  intro ts
  rw [historyAfterTurns, foldl_appendTurn_eq_foldl_dequeAppend]
  have h := foldl_dequeAppend_eq_lastN MAX_HISTORY_LENGTH (flattenTurns ts) [] (by simp)
  simpa using h

/-- C3 counterexample: after six turns only five individual messages
remain — the reply of turn 4 plus the two most recent full turns — so
the history does not hold the five most recent query+reply pairs; the
query of turn 2 (and even of turn 4) is already evicted. -/
theorem c3_counterexample :
    historyAfterTurns [("q1", "r1"), ("q2", "r2"), ("q3", "r3"), ("q4", "r4"), ("q5", "r5"), ("q6", "r6")] =
      [("assistant", "r4"), ("user", "q5"), ("assistant", "r5"), ("user", "q6"), ("assistant", "r6")] ∧
    (historyAfterTurns [("q1", "r1"), ("q2", "r2"), ("q3", "r3"), ("q4", "r4"), ("q5", "r5"), ("q6", "r6")]).length = 5 ∧
    (flattenTurns [("q2", "r2"), ("q3", "r3"), ("q4", "r4"), ("q5", "r5"), ("q6", "r6")]).length = 10 ∧
    historyAfterTurns [("q1", "r1"), ("q2", "r2"), ("q3", "r3"), ("q4", "r4"), ("q5", "r5"), ("q6", "r6")] ≠
      flattenTurns [("q2", "r2"), ("q3", "r3"), ("q4", "r4"), ("q5", "r5"), ("q6", "r6")] ∧
    ("user", "q2") ∉
      historyAfterTurns [("q1", "r1"), ("q2", "r2"), ("q3", "r3"), ("q4", "r4"), ("q5", "r5"), ("q6", "r6")] := by
  decide

/-- C1 counterexample: `retrieved_course_names` is a Python set, so its
iteration order is an arbitrary permutation of the distinct titles, not
their first-appearance order; for the legitimate iteration order
[C, A, B] of fragments first seen as A, B, C the display list is
[C, A, B], not the [A, C, B] the claim requires. -/
theorem c1_counterexample :
    firstSeenTitles c1frags = [c1A, c1B, c1C] ∧
    List.Perm [c1C, c1A, c1B] (firstSeenTitles c1frags) ∧
    isModularOrCert c1A = false ∧ isModularOrCert c1B = true ∧ isModularOrCert c1C = false ∧
    displayList [c1C, c1A, c1B] = [c1C, c1A, c1B] ∧
    [c1C, c1A, c1B] ≠ [c1A, c1C, c1B] := by
  decide

/-- C1 amended: for every iteration order of the distinct-course set,
the display list is capped to 3 entries, contains only retrieved course
titles, and places every non-modular/certificate title before every
modular/certificate one; the order within the list follows the set
iteration order (unspecified), not first appearance. -/
theorem c1_display_properties :
    ∀ (frags : List ChunkInfo) (order : List String),
      order.Perm (firstSeenTitles frags) →
      (displayList order).length ≤ 3 ∧
      (∀ x ∈ displayList order, x ∈ firstSeenTitles frags) ∧
      List.Pairwise (fun a b => isModularOrCert a = true → isModularOrCert b = true)
        (displayList order) := by
  intro frags order hperm
  refine ⟨?_, ?_, ?_⟩
  · simp [displayList]
  · intro x hx
    have hx1 : x ∈ coursesToDisplay order := List.mem_of_mem_take hx
    have hx2 : x ∈ order := by
      rcases List.mem_append.mp hx1 with h | h
      · exact (List.mem_filter.mp h).1
      · exact (List.mem_filter.mp h).1
    exact hperm.subset hx2
  · have hp : List.Pairwise (fun a b => isModularOrCert a = true → isModularOrCert b = true)
        (coursesToDisplay order) := by
      rw [coursesToDisplay, List.pairwise_append]
      refine ⟨?_, ?_, ?_⟩
      · apply List.pairwise_of_forall_mem_list
        intro a ha _ _ hmod
        have := (List.mem_filter.mp ha).2
        simp [hmod] at this
      · apply List.pairwise_of_forall_mem_list
        intro _ _ b hb _
        simpa using (List.mem_filter.mp hb).2
      · intro _ _ b hb _
        simpa using (List.mem_filter.mp hb).2
    exact hp.sublist (List.take_sublist 3 _)

/-- C1 witness: the amended properties instantiated at the concrete
scenario of the counterexample. -/
theorem c1_witness :
    (displayList [c1C, c1A, c1B]).length ≤ 3 ∧
    (∀ x ∈ displayList [c1C, c1A, c1B], x ∈ firstSeenTitles c1frags) ∧
    List.Pairwise (fun a b => isModularOrCert a = true → isModularOrCert b = true)
      (displayList [c1C, c1A, c1B]) :=
  c1_display_properties c1frags [c1C, c1A, c1B] (by decide)

/-- C4 counterexample: with an empty structured catalog but loadable
index artifacts, `process_user_message` does not return the fixed
knowledge-base-unavailable message — it proceeds to call the embedding
service once and the completion service, because the early-return guard
tests the FAISS index handle, not the catalog. -/
theorem c4_counterexample :
    cexEnv.catalog = [] ∧
    (okTrace (process_user_message cexEnv cexOracles cexSt "hello")).map CallTrace.embedCalls =
      some ["hello"] ∧
    (okTrace (process_user_message cexEnv cexOracles cexSt "hello")).map
        (fun t => t.llmCalls.length) = some 1 ∧
    (okRes (process_user_message cexEnv cexOracles cexSt "hello")).map PRes.reply =
      some "model reply" ∧
    "model reply" ≠ kbUnavailableMsg := by
  refine ⟨rfl, rfl, rfl, rfl, by decide⟩

/-- C4 amended: the guard is on the semantic index, not the catalog —
whenever the FAISS index is not loaded, `process_user_message` returns
the fixed knowledge-base-unavailable message with an empty row list,
leaves the conversation state unchanged, and invokes neither the
embedding nor the completion service. -/
theorem c4_kb_unavailable_guard :
    ∀ (env : SysEnv) (o : Oracles) (st : ConvState) (user_query : String),
      env.faissIndex = Option.none →
      process_user_message env o st user_query =
        Except.ok (⟨kbUnavailableMsg, [], false⟩, st, ⟨[], [], []⟩) := by
  intro env o st user_query h
  simp [process_user_message, processPipeline, h]

/-- C4 witness: the guard at a concrete unloaded environment. -/
theorem c4_witness :
    process_user_message { cexEnv with faissIndex := Option.none } cexOracles cexSt "hello" =
      Except.ok (⟨kbUnavailableMsg, [], false⟩, cexSt, ⟨[], [], []⟩) :=
  c4_kb_unavailable_guard _ cexOracles cexSt "hello" rfl

/-- C7: when the embedding call fails, `process_user_message` returns
the inline error message with an empty row list and a false
specific-detail flag, and the conversation state is exactly the state
before the call — no history entry is appended and the last-discussed
course keeps its prior value; no fetch or completion call is made. -/
theorem c7_embedding_failure_atomic :
    ∀ (env : SysEnv) (o : Oracles) (st : ConvState) (user_query errMsg : String),
      env.faissIndex.isSome = true →
      env.embModelLoaded = true →
      o.embed (expandQuery user_query) = Except.error errMsg →
      process_user_message env o st user_query =
        Except.ok (⟨"Error embedding your query: " ++ errMsg ++ ". Cannot perform search.", [], false⟩,
          st, ⟨[expandQuery user_query], [], []⟩) := by
  intro env o st user_query errMsg h1 h2 h3
  rcases henv : env.faissIndex with _ | n
  · rw [henv] at h1; simp at h1
  · simp [process_user_message, processPipeline, henv, h2, h3]

/-- C7 witness: the embedding-failure path at a concrete environment. -/
theorem c7_witness :
    process_user_message cexEnv embedFailOracles cexSt "hello" =
      Except.ok (⟨"Error embedding your query: " ++ "boom" ++ ". Cannot perform search.", [], false⟩,
        cexSt, ⟨[expandQuery "hello"], [], []⟩) :=
  c7_embedding_failure_atomic cexEnv embedFailOracles cexSt "hello" "boom" rfl rfl rfl

/-- C6: when neither static fragment context nor dynamic scraped
content was obtained (the assembled context is empty),
`process_user_message` returns the fixed nothing-found message with an
empty row list, and the completion service is not called at all (the
trace records no completion input). -/
theorem c6_empty_context_short_circuit :
    ∀ (env : SysEnv) (o : Oracles) (st : ConvState) (user_query : String) (v : Nat)
      (ex : Option String),
      env.faissIndex.isSome = true →
      env.embModelLoaded = true →
      o.embed (expandQuery user_query) = Except.ok v →
      extract_course_name_from_query env.catalog user_query = Except.ok ex →
      (contextStrOf env o v ++ dynamicContextOf env o st user_query v ex).isEmpty = true →
      process_user_message env o st user_query =
        Except.ok (⟨nothingFoundMsg, [], has_specific_query user_query⟩,
          ⟨resolvedLast st ex, st.history⟩,
          ⟨[expandQuery user_query], [], fetchLogOf env o st user_query v ex⟩) := by
  intro env o st user_query v ex h1 h2 h3 h4 h5
  rcases henv : env.faissIndex with _ | n
  · rw [henv] at h1; simp at h1
  · simp [process_user_message, processPipeline, processAfterExtract, henv, h2, h3, h4, h5]

/-- C6 witness: a concrete run with no retrieval hit, an empty catalog
and a failing fetcher short-circuits with the nothing-found message. -/
theorem c6_witness :
    process_user_message cexEnv noHitOracles cexSt "hello" =
      Except.ok (⟨nothingFoundMsg, [], has_specific_query "hello"⟩,
        ⟨resolvedLast cexSt Option.none, cexSt.history⟩,
        ⟨[expandQuery "hello"], [], fetchLogOf cexEnv noHitOracles cexSt "hello" 0 Option.none⟩) :=
  c6_empty_context_short_circuit cexEnv noHitOracles cexSt "hello" 0 Option.none rfl rfl rfl rfl
    (by decide)

/-- C8 counterexample: `load_faiss_components` loads an index of 7
vectors together with a 3-row metadata array without complaint, and the
loaded index passes the availability guard of `process_user_message` —
the mismatch is not detected and the pair is not refused. -/
theorem c8_counterexample :
    (load_faiss_components mismatchInputs emptyEnv).faissIndex = some 7 ∧
    (load_faiss_components mismatchInputs emptyEnv).metadata.length = 3 ∧
    (7 : Nat) ≠ 3 ∧
    (load_faiss_components mismatchInputs emptyEnv).faissIndex.isSome = true := by
  refine ⟨rfl, rfl, by decide, rfl⟩

/-- C8 amended: the loader performs no count-consistency check — any
successfully read index/metadata pair is installed regardless of the
counts; out-of-range indices are only skipped per query by the bounds
guard of the retrieval loop, which yields only genuine metadata rows. -/
theorem c8_no_load_time_mismatch_check :
    (∀ (inp : LoadInputs) (env : SysEnv) (n : Nat) (meta : List ChunkInfo),
      env.faissIndex = Option.none →
      inp.embInitOk = true →
      inp.filesExist = true →
      inp.indexRead = Except.ok n →
      inp.metaRead = Except.ok meta →
      (load_faiss_components inp env).faissIndex = some n ∧
      (load_faiss_components inp env).metadata = meta) ∧
    (∀ (indices : List Int) (meta : List ChunkInfo) (c : ChunkInfo),
      c ∈ retrievedChunks indices meta → c ∈ meta) := by
  constructor
  · intro inp env n meta h0 h1 h2 h3 h4
    simp [load_faiss_components, h0, h1, h2, h3, h4]
  · intro indices meta c hc
    obtain ⟨i, _, hi⟩ := List.mem_filterMap.mp hc
    unfold pyListGet at hi
    split at hi
    · exact List.get?_mem hi
    · split at hi
      · exact List.get?_mem hi
      · exact absurd hi (by simp)

/-- C8 witness: the amended behaviour at the concrete mismatched pair,
and the query-side bounds guard at a concrete retrieval. -/
theorem c8_witness :
    ((load_faiss_components mismatchInputs emptyEnv).faissIndex = some 7 ∧
     (load_faiss_components mismatchInputs emptyEnv).metadata =
       [⟨"c1", "t1", "u1"⟩, ⟨"c2", "t2", "u2"⟩, ⟨"c3", "t3", "u3"⟩]) ∧
    (⟨"chunkA", "Course A Diploma", "urlA"⟩ : ChunkInfo) ∈ cexMetadata :=
  ⟨c8_no_load_time_mismatch_check.1 mismatchInputs emptyEnv 7 _ rfl rfl rfl rfl rfl,
   c8_no_load_time_mismatch_check.2 [0, 1, -1, -1, -1] cexMetadata _ (by decide)⟩

theorem processAfterExtract_embed_input_only_in_trace
    (env : SysEnv) (o : Oracles) (st : ConvState) (user_query a b : String) (v : Nat)
    (ex : Option String) :
    (processAfterExtract env o st user_query a v ex).1 =
      (processAfterExtract env o st user_query b v ex).1 ∧
    (processAfterExtract env o st user_query a v ex).2.1 =
      (processAfterExtract env o st user_query b v ex).2.1 ∧
    (processAfterExtract env o st user_query a v ex).2.2.llmCalls =
      (processAfterExtract env o st user_query b v ex).2.2.llmCalls ∧
    (processAfterExtract env o st user_query a v ex).2.2.fetchCalls =
      (processAfterExtract env o st user_query b v ex).2.2.fetchCalls ∧
    (processAfterExtract env o st user_query a v ex).2.2.embedCalls = [a] ∧
    (processAfterExtract env o st user_query b v ex).2.2.embedCalls = [b] := by
  cases h : (contextStrOf env o v ++ dynamicContextOf env o st user_query v ex).isEmpty with
  | true => simp [processAfterExtract, h]
  | false => simp [processAfterExtract, h]

/-- C9: query expansion is a deterministic rewrite whose effect is
confined to the embedding-service input — when the embedding service
answers the expanded and the raw text alike, the run with expansion and
the run without it agree on the reply, the rows, the flag, the
conversation state, the completion inputs and the fetch inputs; the
expanded text reaches only the embedding call, and the main completion
call carries the recorded history and the raw user query as its final
turn. -/
theorem c9_expansion_affects_only_embedding_input :
    ∀ (env : SysEnv) (o : Oracles) (st : ConvState) (user_query : String),
      o.embed (expandQuery user_query) = o.embed user_query →
      visibleOutcome (process_user_message env o st user_query) =
        visibleOutcome (processNoExpansion env o st user_query) ∧
      (∀ tr, okTrace (process_user_message env o st user_query) = some tr →
        tr.embedCalls = [] ∨ tr.embedCalls = [expandQuery user_query]) ∧
      (∀ (embIn : String) (v : Nat) (ex : Option String),
        (processAfterExtract env o st user_query embIn v ex).2.2.llmCalls = [] ∨
        ∃ sys rest,
          (processAfterExtract env o st user_query embIn v ex).2.2.llmCalls =
            (("system", sys) :: (st.history ++ [("user", user_query)])) :: rest) := by
  intro env o st user_query h
  refine ⟨?_, ?_, ?_⟩
  · rcases henv : env.faissIndex with _ | n
    · simp [process_user_message, processNoExpansion, processPipeline, henv]
    · cases h2 : env.embModelLoaded
      · simp [process_user_message, processNoExpansion, processPipeline, henv, h2]
      · cases he : o.embed user_query with
        | error e =>
          have he2 : o.embed (expandQuery user_query) = Except.error e := by rw [h, he]
          simp [process_user_message, processNoExpansion, processPipeline, henv, h2, he, he2,
            visibleOutcome]
        | ok v =>
          have he2 : o.embed (expandQuery user_query) = Except.ok v := by rw [h, he]
          cases hex : extract_course_name_from_query env.catalog user_query with
          | error e =>
            simp [process_user_message, processNoExpansion, processPipeline, henv, h2, he, he2,
              hex, visibleOutcome]
          | ok ex =>
            have hs := processAfterExtract_embed_input_only_in_trace env o st user_query
              (expandQuery user_query) user_query v ex
            simp [process_user_message, processNoExpansion, processPipeline, henv, h2, he, he2,
              hex, visibleOutcome]
            exact ⟨hs.1, hs.2.1, hs.2.2.1, hs.2.2.2.1⟩
  · intro tr htr
    rcases henv : env.faissIndex with _ | n
    · simp [process_user_message, processPipeline, henv, okTrace] at htr
      exact Or.inl (by rw [← htr])
    · cases h2 : env.embModelLoaded
      · simp [process_user_message, processPipeline, henv, h2, okTrace] at htr
        exact Or.inl (by rw [← htr])
      · cases he2 : o.embed (expandQuery user_query) with
        | error e =>
          simp [process_user_message, processPipeline, henv, h2, he2, okTrace] at htr
          exact Or.inr (by rw [← htr])
        | ok v =>
          cases hex : extract_course_name_from_query env.catalog user_query with
          | error e =>
            simp [process_user_message, processPipeline, henv, h2, he2, hex, okTrace] at htr
          | ok ex =>
            simp [process_user_message, processPipeline, henv, h2, he2, hex, okTrace] at htr
            have hs := processAfterExtract_embed_input_only_in_trace env o st user_query
              (expandQuery user_query) (expandQuery user_query) v ex
            exact Or.inr (by rw [← htr]; exact hs.2.2.2.2.1)
  · intro embIn v ex
    cases hc : (contextStrOf env o v ++ dynamicContextOf env o st user_query v ex).isEmpty with
    | true => exact Or.inl (by simp [processAfterExtract, hc])
    | false =>
      refine Or.inr ⟨?_, ?_, ?_⟩
      · exact
          if has_specific_query user_query &&
              !(dynamicContextOf env o st user_query v ex).isEmpty then
            if schedule_keywords.any (fun k => containsSub (pyLower user_query) k) then
              schedulePrompt (resolvedLast st ex) user_query
                (dynamicContextOf env o st user_query v ex)
            else
              detailExtractionPrompt (resolvedLast st ex) user_query
                (dynamicContextOf env o st user_query v ex)
          else
            overviewPrompt user_query
              (contextStrOf env o v ++ dynamicContextOf env o st user_query v ex)
              (summariesText env.catalog (displayList (setOrderOf env o v)))
              (String.intercalate "\n" ((urlDictOf (chunksOf env o v)).map (fun p => p.2)))
      · exact (buildRows env o (namesOf env o v) (setOrderOf env o v)).2.1
      · simp [processAfterExtract, hc, mainMessages]

/-- C9 witness: the isolation property at a concrete environment whose
embedding oracle is constant, on a query that actually triggers the
expansion. -/
theorem c9_witness :
    visibleOutcome (process_user_message cexEnv cexOracles cexSt "courses for project managers") =
      visibleOutcome (processNoExpansion cexEnv cexOracles cexSt "courses for project managers") ∧
    (∀ tr, okTrace (process_user_message cexEnv cexOracles cexSt "courses for project managers") =
        some tr →
      tr.embedCalls = [] ∨ tr.embedCalls = [expandQuery "courses for project managers"]) ∧
    (∀ (embIn : String) (v : Nat) (ex : Option String),
      (processAfterExtract cexEnv cexOracles cexSt "courses for project managers" embIn v
          ex).2.2.llmCalls = [] ∨
      ∃ sys rest,
        (processAfterExtract cexEnv cexOracles cexSt "courses for project managers" embIn v
            ex).2.2.llmCalls =
          (("system", sys) :: (cexSt.history ++ [("user", "courses for project managers")])) :: rest) :=
  c9_expansion_affects_only_embedding_input cexEnv cexOracles cexSt "courses for project managers" rfl

theorem processAfterExtract_lastCourse_specific (env : SysEnv) (o : Oracles) (st : ConvState)
    (user_query embIn : String) (v : Nat) :
    has_specific_query user_query = true →
    (processAfterExtract env o st user_query embIn v Option.none).2.1.lastCourse =
      st.lastCourse := by
  intro h
  cases hc : (contextStrOf env o v ++ dynamicContextOf env o st user_query v Option.none).isEmpty with
  | true => simp [processAfterExtract, hc, resolvedLast]
  | false => simp [processAfterExtract, hc, h, resolvedLast]

theorem processAfterExtract_lastCourse_general (env : SysEnv) (o : Oracles) (st : ConvState)
    (user_query embIn : String) (v : Nat) (ex : Option String) (c : String) :
    has_specific_query user_query = false →
    (contextStrOf env o v ++ dynamicContextOf env o st user_query v ex).isEmpty = false →
    (setOrderOf env o v).head? = some c →
    c.isEmpty = false →
    (processAfterExtract env o st user_query embIn v ex).2.1.lastCourse = PyStr.str c := by
  intro h hctx hhead hc
  simp [processAfterExtract, hctx, h, hhead, hc]

/-- C2 amended: a specific-detail query that names no known course
leaves the last-discussed course unchanged (as claimed); but a
non-specific query with retrieval hits sets it to the head of the
course-name set iteration order (which is unspecified) — some retrieved
course, not necessarily the top retrieval hit — and only on the path
where context was assembled and that head is a non-empty title. -/
theorem c2_last_discussed_update :
    (∀ (env : SysEnv) (o : Oracles) (st : ConvState) (user_query : String)
       (r : PRes × ConvState × CallTrace),
      process_user_message env o st user_query = Except.ok r →
      has_specific_query user_query = true →
      extract_course_name_from_query env.catalog user_query = Except.ok Option.none →
      r.2.1.lastCourse = st.lastCourse) ∧
    (∀ (env : SysEnv) (o : Oracles) (st : ConvState) (user_query : String) (v : Nat)
       (ex : Option String) (c : String),
      env.faissIndex.isSome = true →
      env.embModelLoaded = true →
      o.embed (expandQuery user_query) = Except.ok v →
      extract_course_name_from_query env.catalog user_query = Except.ok ex →
      has_specific_query user_query = false →
      (contextStrOf env o v ++ dynamicContextOf env o st user_query v ex).isEmpty = false →
      (setOrderOf env o v).head? = some c →
      c.isEmpty = false →
      (okState (process_user_message env o st user_query)).map ConvState.lastCourse =
        some (PyStr.str c) ∧
      ((setOrderOf env o v).Perm (namesOf env o v) → c ∈ namesOf env o v)) := by
  constructor
  · intro env o st user_query r hrun hspec hex
    rcases henv : env.faissIndex with _ | n
    · simp [process_user_message, processPipeline, henv] at hrun
      rw [← hrun]
    · cases h2 : env.embModelLoaded
      · simp [process_user_message, processPipeline, henv, h2] at hrun
        rw [← hrun]
      · cases he : o.embed (expandQuery user_query) with
        | error e =>
          simp [process_user_message, processPipeline, henv, h2, he] at hrun
          rw [← hrun]
        | ok v =>
          simp [process_user_message, processPipeline, henv, h2, he, hex] at hrun
          rw [← hrun]
          exact processAfterExtract_lastCourse_specific env o st user_query
            (expandQuery user_query) v hspec
  · intro env o st user_query v ex c h1 h2 he hex hspec hctx hhead hc
    rcases henv : env.faissIndex with _ | n
    · rw [henv] at h1; simp at h1
    · constructor
      · simp [process_user_message, processPipeline, henv, h2, he, hex, okState]
        exact processAfterExtract_lastCourse_general env o st user_query
          (expandQuery user_query) v ex c hspec hctx hhead hc
      · intro hperm
        have hcmem : c ∈ setOrderOf env o v := by
          cases hl : setOrderOf env o v with
          | nil => rw [hl] at hhead; simp at hhead
          | cons a t =>
            rw [hl] at hhead
            simp at hhead
            rw [← hhead]
            exact List.mem_cons_self a t
        exact hperm.mem_iff.mp hcmem

/-- C2 counterexample: fragments are retrieved for course A first, then
course B, on a non-specific query; with the legitimate set iteration
order [B, A] the last-discussed course after the call is B, not the top
retrieval hit A. -/
theorem c2_counterexample :
    firstSeenTitles (chunksOf cexEnv cexOracles 0) = ["Course A Diploma", "Course B Diploma"] ∧
    has_specific_query "recommend courses" = false ∧
    (okState (process_user_message cexEnv cexOracles cexSt "recommend courses")).map
      ConvState.lastCourse = some (PyStr.str "Course B Diploma") ∧
    "Course B Diploma" ≠ "Course A Diploma" := by
  refine ⟨rfl, by decide, rfl, by decide⟩

/-- C2 witness: the first part on a concrete specific-detail run that
ends at the index guard, the second on the concrete non-specific run of
the counterexample scenario. -/
theorem c2_witness :
    ((⟨kbUnavailableMsg, [], false⟩, cexSt, (⟨[], [], []⟩ : CallTrace)) :
        PRes × ConvState × CallTrace).2.1.lastCourse = cexSt.lastCourse ∧
    ((okState (process_user_message cexEnv cexOracles cexSt "recommend courses")).map
        ConvState.lastCourse = some (PyStr.str "Course B Diploma") ∧
     ((setOrderOf cexEnv cexOracles 0).Perm (namesOf cexEnv cexOracles 0) →
       "Course B Diploma" ∈ namesOf cexEnv cexOracles 0)) :=
  ⟨c2_last_discussed_update.1 { cexEnv with faissIndex := Option.none } cexOracles cexSt
      "what is the fee" _ rfl (by decide) rfl,
   c2_last_discussed_update.2 cexEnv cexOracles cexSt "recommend courses" 0 Option.none
      "Course B Diploma" rfl rfl rfl rfl (by decide) (by decide) rfl (by decide)⟩
